import Mathlib

/-!
Shallow embedding of the result-validation engine of
`nds-h/nds_h_validate.py` (spark-rapids-benchmarks).

Scalar query-output values are modelled by the tagged union `Value`
(null, boolean, integer, fixed-point decimal, floating point, text),
mirroring the spec's data model and the dynamic Python values the
script actually compares.  Floating-point numbers are modelled as
exact rationals plus a NaN marker (floats-as-reals; IEEE infinities
and rounding are out of scope of the claims).  Fallible operations
(Spark loads that may raise) are modelled with `Option`.
-/

namespace NDSH

/-- A Python float as seen by `compare`: NaN, or a finite value
modelled as an exact rational. -/
inductive FloatVal : Type
  | nan : FloatVal
  | fin : ℚ → FloatVal
deriving DecidableEq

/-- A scalar value in a result row: the tagged union
{Null, Boolean, Integer, FixedPointDecimal, FloatingPoint, Text}. -/
inductive Value : Type
  | null : Value
  | bool : Bool → Value
  | int : ℤ → Value
  | decimal : ℚ → Value
  | float : FloatVal → Value
  | text : String → Value
deriving DecidableEq

/-- The Python runtime type of a `Value` (NoneType, bool, int, Decimal,
float, str), used to state claims about mixed-type comparisons. -/
inductive PyType : Type
  | noneType | boolType | intType | decimalType | floatType | strType
deriving DecidableEq

def Value.pyType : Value → PyType
  | .null => .noneType
  | .bool _ => .boolType
  | .int _ => .intType
  | .decimal _ => .decimalType
  | .float _ => .floatType
  | .text _ => .strType

def FloatVal.isNan : FloatVal → Bool
  | .nan => true
  | .fin _ => false

/-- The numeric value of a `Value` under Python's numeric tower
(`bool` ⊂ `int`; `int`, `float`, `Decimal` compare by exact numeric
value), `none` for non-numeric values and NaN. -/
def numVal : Value → Option ℚ
  | .bool b => some (if b then 1 else 0)
  | .int n => some (n : ℚ)
  | .float (.fin q) => some q
  | .decimal q => some q
  | _ => none

/-- Python `==` on the modelled scalar values: `None == None`, string
equality on `str`, numeric-value equality across the numeric types
(so `5 == 5.0` and `True == 1` hold), `False` for everything else
(including any comparison involving NaN). -/
def pyEq (v w : Value) : Bool :=
  match v, w with
  | .null, .null => true
  | .text s, .text t => s == t
  | v, w =>
    match numVal v, numVal w with
    | some a, some b => a == b
    | _, _ => false

/-- `math.isclose(a, b, rel_tol = eps, abs_tol = 0)` on finite values:
the `a == b` shortcut, then `|a - b| <= eps * max(|a|, |b|)`.
CPython raises ValueError for a negative `rel_tol`, so this model is
only quoted at `0 ≤ eps`; infinities are not modelled. -/
def pyIsclose (a b eps : ℚ) : Bool :=
  a == b || decide (|a - b| ≤ eps * max |a| |b|)

/-- `math.isclose` lifted to `FloatVal`: any comparison involving NaN
is false (in CPython, `a == b` fails and the tolerance comparison is
false when an operand is NaN). -/
def pyIscloseF (a b : FloatVal) (eps : ℚ) : Bool :=
  match a, b with
  | .fin x, .fin y => pyIsclose x y eps
  | _, _ => false

/-- `compare(expected, actual, epsilon)` from `nds_h_validate.py`
lines 161-174: float pairs get a NaN-NaN special case then
`math.isclose`; Decimal pairs get `math.isclose`; everything else
falls through to Python `==`. -/
def compare (expected actual : Value) (epsilon : ℚ) : Bool :=
  match expected, actual with
  | .float e, .float a =>
    if e.isNan && a.isNan then true
    else pyIscloseF e a epsilon
  | .decimal x, .decimal y => pyIsclose x y epsilon
  | e, a => pyEq e a

/-- `rowEqual(row1, row2, epsilon)` from lines 156-158:
`all(compare(lhs, rhs, epsilon) for lhs, rhs in zip(row1, row2))`;
Python `zip` truncates to the shorter row. -/
def rowEqual (row1 row2 : List Value) (epsilon : ℚ) : Bool :=
  (row1.zip row2).all (fun p => compare p.1 p.2 epsilon)

/-- The spec's relative-tolerance rule for floating-point pairs,
modelled from its words: `|a-b| <= epsilon * max(|a|,|b|)`, read with
IEEE comparison semantics (false whenever an operand is NaN). -/
def specFloatClose (e a : FloatVal) (eps : ℚ) : Bool :=
  match e, a with
  | .fin x, .fin y => decide (|x - y| ≤ eps * max |x| |y|)
  | _, _ => false

/-! ### Datasets, schemas, and the Dataset Loader/Orderer (`collect_results`) -/

/-- A Spark SQL column type, as far as its `typeName()` string matters
to `collect_results`. -/
inductive DataType : Type
  | boolean : DataType
  | integer : DataType
  | long : DataType
  | float : DataType
  | double : DataType
  | decimal : Nat → Nat → DataType
  | string : DataType
  | date : DataType
deriving DecidableEq

/-- PySpark's `DataType.typeName()` for each modelled type
(`DecimalType.typeName()` is the bare string without precision). -/
def DataType.typeName : DataType → String
  | .boolean => "boolean"
  | .integer => "integer"
  | .long => "long"
  | .float => "float"
  | .double => "double"
  | .decimal _ _ => "decimal"
  | .string => "string"
  | .date => "date"

/-- A schema field: column name and column type. -/
structure Field : Type where
  name : String
  dataType : DataType
deriving DecidableEq

/-- A loaded DataFrame: an ordered schema and positional rows. -/
structure Dataset : Type where
  fields : List Field
  rows : List (List Value)
deriving DecidableEq

/-- `SKIP_QUERIES` (lines 48-51): view-management statements with no
row output. -/
def SKIP_QUERIES : List String := ["query15_part1", "query15_part3"]

/-- `SKIP_COLUMNS` (lines 52-54): per-query columns dropped from both
sides before comparison. -/
def SKIP_COLUMNS : List (String × List String) := [("query18", ["o_orderkey"])]

/-- The columns `collect_results` drops for a query (empty when the
query has no entry in `SKIP_COLUMNS`). -/
def skipColumnsFor (query_name : String) : List String :=
  match SKIP_COLUMNS.find? (fun p => p.1 == query_name) with
  | some p => p.2
  | none => []

/-- `df.drop(*cols)`: remove the named columns from the schema and the
corresponding positions from every row. -/
def dropColumns (cols : List String) (df : Dataset) : Dataset where
  fields := df.fields.filter (fun f => !cols.contains f.name)
  rows := df.rows.map (fun r =>
    ((df.fields.zip r).filter (fun p => !cols.contains p.1.name)).map (fun p => p.2))

/-- The membership test of lines 135-138: a field counts as floating
exactly when its `typeName()` is `FloatType.typeName()` or
`DoubleType.typeName()`. -/
def isFloatField (f : Field) : Bool :=
  [DataType.typeName .float, DataType.typeName .double].contains f.dataType.typeName

/-- `non_float_cols` (lines 135-136): names of the fields whose
`typeName()` is not float or double, in schema order. -/
def nonFloatColNames (fields : List Field) : List String :=
  (fields.filter (fun f => !isFloatField f)).map Field.name

/-- `float_cols` (lines 137-138): names of the fields whose
`typeName()` is float or double, in schema order. -/
def floatColNames (fields : List Field) : List String :=
  (fields.filter isFloatField).map Field.name

/-- The composite sort key of line 140: `non_float_cols + float_cols`. -/
def sortKeyCols (fields : List Field) : List String :=
  nonFloatColNames fields ++ floatColNames fields

/-- Whether a field's column type is a fixed-point decimal. -/
def isDecimalField (f : Field) : Bool :=
  match f.dataType with
  | .decimal _ _ => true
  | _ => false

/-- The spec's composite sort key, modelled from its words: all
non-floating and non-decimal columns first (in schema order), followed
by all floating-point and decimal columns (in schema order). -/
def specSortKeyCols (fields : List Field) : List String :=
  (fields.filter (fun f => !(isFloatField f || isDecimalField f))).map Field.name
  ++ (fields.filter (fun f => isFloatField f || isDecimalField f)).map Field.name

/-- A row's values reordered by the composite sort key: values of the
non-float/double columns in schema order, then values of the
float/double columns in schema order. -/
def keyValues (fields : List Field) (row : List Value) : List Value :=
  ((fields.zip row).filter (fun p => !isFloatField p.1)).map (fun p => p.2)
  ++ ((fields.zip row).filter (fun p => isFloatField p.1)).map (fun p => p.2)

/-- A total comparison on scalar values used to model Spark's ascending
sort: within a (typed) column it is the usual order on that type, with
null first and NaN greatest among floats; the cross-type order is an
arbitrary tie-breaker that a well-typed column never exercises. -/
def valueLe (v w : Value) : Bool :=
  match v, w with
  | .bool a, .bool b => !a || b
  | .int a, .int b => a ≤ b
  | .decimal a, .decimal b => a ≤ b
  | .float (.fin a), .float (.fin b) => a ≤ b
  | .float (.fin _), .float .nan => true
  | .float .nan, .float (.fin _) => false
  | .text a, .text b => a ≤ b
  | v, w => valueRank v ≤ valueRank w
where
  valueRank : Value → Nat
  | .null => 0
  | .bool _ => 1
  | .int _ => 2
  | .decimal _ => 3
  | .float _ => 4
  | .text _ => 5

/-- Lexicographic lifting of a boolean comparison to lists. -/
def listLe (le : Value → Value → Bool) : List Value → List Value → Bool
  | [], _ => true
  | _ :: _, [] => false
  | a :: as, b :: bs =>
    if le a b && !le b a then true
    else if le b a && !le a b then false
    else listLe le as bs

/-- Rows are sorted by their composite key, compared lexicographically. -/
def rowLe (fields : List Field) (r s : List Value) : Bool :=
  listLe valueLe (keyValues fields r) (keyValues fields s)

/-- Insertion step of a stable insertion sort. -/
def insertRow (le : List Value → List Value → Bool) (r : List Value) :
    List (List Value) → List (List Value)
  | [] => [r]
  | s :: rest => if le r s then r :: s :: rest else s :: insertRow le r rest

/-- Stable insertion sort modelling `df.sort` on the collected rows. -/
def sortRowsBy (le : List Value → List Value → Bool) : List (List Value) → List (List Value)
  | [] => []
  | r :: rest => insertRow le r (sortRowsBy le rest)

/-- `collect_results` (lines 126-153): drop the query's skip columns,
then sort by `non_float_cols + float_cols` when `ignore_ordering` is
set, and yield the rows.  The `use_iterator` flag only chooses between
lazy and eager delivery of the same row sequence, so it is not
modelled. -/
def collect_results (df : Dataset) (query_name : String) (ignore_ordering : Bool) :
    List (List Value) :=
  let dfd := dropColumns (skipColumnsFor query_name) df
  if ignore_ordering then sortRowsBy (rowLe dfd.fields) dfd.rows else dfd.rows

/-! ### The Query Comparison Driver (`compare_results`, lines 57-124) -/

/-- The distinct outcomes of `compare_results`, one per return branch:
the skip-list early return (line 90), the count-mismatch branch
(line 124), the `errors == max_errors` abort (line 115), the clean
match (line 118), and the residual-error branch (line 121). -/
inductive Verdict : Type
  | skipped : Verdict
  | matched : Verdict
  | countMismatch : Nat → Nat → Verdict
  | maxErrorsReached : Nat → Verdict
  | contentMismatch : Nat → Verdict
deriving DecidableEq

/-- The boolean `compare_results` actually returns for each branch. -/
def Verdict.toBool : Verdict → Bool
  | .skipped => true
  | .matched => true
  | _ => false

/-- The while loop of lines 102-110: starting from `errors` accumulated
mismatches, consume row pairs while `errors < max_errors`, returning
(number of pairs consumed, final error count). -/
def streamRows (eps : ℚ) (max_errors : Nat) :
    List (List Value × List Value) → Nat → Nat × Nat
  | [], errors => (0, errors)
  | p :: rest, errors =>
    if errors < max_errors then
      let r := streamRows eps max_errors rest
        (if rowEqual p.1 p.2 eps then errors else errors + 1)
      (r.1 + 1, r.2)
    else (0, errors)

/-- Number of row pairs in a list that `rowEqual` rejects. -/
def countMismatchedPairs (eps : ℚ) (pairs : List (List Value × List Value)) : Nat :=
  pairs.countP (fun p => !rowEqual p.1 p.2 eps)

/-- Lines 102-121 of `compare_results`, on the two collected row lists
of a query whose row counts already matched: stream pairs up to the
error cap, then branch on `errors == max_errors` first, `errors == 0`
second. -/
def compareRows (rows1 rows2 : List (List Value)) (eps : ℚ) (max_errors : Nat) : Verdict :=
  let res := streamRows eps max_errors (rows1.zip rows2) 0
  if res.2 = max_errors then .maxErrorsReached max_errors
  else if res.2 = 0 then .matched
  else .contentMismatch res.2

/-- `compare_results` (lines 57-124).  The two Spark loads are
modelled as `Option Dataset` (`none` when no files exist at the path,
in which case `spark.read.load` raises, modelled as `none` overall).
The skip-list check precedes both loads; then the pre-collect row
counts are compared, and only on equal counts are the two sides
collected (with column drops and optional ordering) and streamed
pairwise. -/
def compare_results (query_name : String) (load1 load2 : Option Dataset)
    (ignore_ordering : Bool) (max_errors : Nat) (eps : ℚ) : Option Verdict :=
  if query_name ∈ SKIP_QUERIES then some .skipped
  else
    match load1, load2 with
    | some df1, some df2 =>
      let count1 := df1.rows.length
      let count2 := df2.rows.length
      if count1 = count2 then
        some (compareRows (collect_results df1 query_name ignore_ordering)
                          (collect_results df2 query_name ignore_ordering)
                          eps max_errors)
      else some (.countMismatch count1 count2)
    | _, _ => none

/-! ### The Status Reconciler (`update_summary`, lines 209-246) -/

/-- The per-file update of lines 238-244: the new value of
`queryValidationStatus`, given the query name, the list of queries
that failed validation, and the summary's `queryStatus` list. -/
def updateValidationStatus (query_name : String) (unmatch_queries : List String)
    (queryStatus : List String) : List String :=
  if query_name ∈ unmatch_queries then
    if "Completed" ∈ queryStatus ∨ "CompletedWithTaskFailures" ∈ queryStatus then
      ["Fail"]
    else ["NotAttempted"]
  else ["Pass"]

/-! ### Helper lemmas -/

example : compare (.int 5) (.float (.fin 5)) (1/100000) = true := by decide
example : compare (.bool true) (.int 1) (1/100000) = true := by decide
example : compare (.float .nan) (.float .nan) (1/100000) = true := by decide
example : compare (.float .nan) (.float (.fin 0)) (1/100000) = false := by decide
example : compare (.text "a") (.int 5) (1/100000) = false := by decide
example : rowEqual [.int 1, .int 2] [.int 1] (1/100000) = true := by decide
example : compareRows [[Value.int 1]] [[Value.int 1]] (1/100000) 10 = .matched := by decide
example : compareRows [[Value.int 1]] [[Value.int 2]] (1/100000) 10 = .contentMismatch 1 := by decide
example : compareRows [] [] (1/100000) 0 = .maxErrorsReached 0 := by decide
example : compare_results "query15_part1" none none true 10 (1/100000) = some .skipped := by decide
example : updateValidationStatus "query1" ["query1"] ["Completed"] = ["Fail"] := by decide

/-- For ordered nonnegative finite operands, `math.isclose` is the
relative bound `b - a ≤ eps * b`. -/
theorem pyIsclose_iff_of_le (a b eps : ℚ) (h0 : 0 ≤ a) (hab : a ≤ b) (heps : 0 ≤ eps) :
    pyIsclose a b eps = true ↔ b - a ≤ eps * b := by
  have hb : 0 ≤ b := le_trans h0 hab
  have habs : |a - b| = b - a := by
    rw [abs_sub_comm, abs_of_nonneg (sub_nonneg.mpr hab)]
  have hmax : max |a| |b| = b := by
    rw [abs_of_nonneg h0, abs_of_nonneg hb, max_eq_right hab]
  simp only [pyIsclose, Bool.or_eq_true, beq_iff_eq, decide_eq_true_eq, habs, hmax]
  constructor
  · rintro (rfl | h)
    · simpa using mul_nonneg heps hb
    · exact h
  · exact fun h => Or.inr h

/-- 1.0 and 1.0000099999 are within relative tolerance 1e-5. -/
theorem compare_boundary_under :
    compare (.float (.fin 1)) (.float (.fin (10000099999/10000000000))) (1/100000) = true := by
  have h := (pyIsclose_iff_of_le 1 (10000099999/10000000000) (1/100000)
    (by norm_num) (by norm_num) (by norm_num)).mpr (by norm_num)
  simpa [compare, pyIscloseF, FloatVal.isNan] using h

/-- 1.0 and 1.0000200001 are outside relative tolerance 1e-5. -/
theorem compare_boundary_over :
    compare (.float (.fin 1)) (.float (.fin (10000200001/10000000000))) (1/100000) = false := by
  have h : pyIsclose 1 (10000200001/10000000000) (1/100000) = false := by
    rw [Bool.eq_false_iff]
    intro hc
    have h2 := (pyIsclose_iff_of_le 1 (10000200001/10000000000) (1/100000)
      (by norm_num) (by norm_num) (by norm_num)).mp hc
    norm_num at h2
  simpa [compare, pyIscloseF, FloatVal.isNan] using h

/-- On values of distinct Python types, `compare` skips the float and
Decimal branches and falls through to Python `==`. -/
theorem compare_eq_pyEq (v w : Value) (eps : ℚ) (h : v.pyType ≠ w.pyType) :
    compare v w eps = pyEq v w := by
  cases v <;> cases w <;> first | rfl | exact absurd rfl h

/-- On values of distinct Python types, Python `==` holds exactly when
both values are numeric with the same numeric value. -/
theorem pyEq_num_iff (v w : Value) (h : v.pyType ≠ w.pyType) :
    (pyEq v w = true ↔ ∃ q, numVal v = some q ∧ numVal w = some q) := by
  have hvw : pyEq v w = (match numVal v, numVal w with
      | some a, some b => a == b
      | _, _ => false) := by
    cases v <;> cases w <;> first | rfl | exact absurd rfl h
  rw [hvw]
  rcases hv : numVal v with _ | a
  · rcases hw : numVal w with _ | b <;> simp
  · rcases hw : numVal w with _ | b
    · simp
    · simp only [beq_iff_eq, Option.some.injEq]
      constructor
      · rintro rfl
        exact ⟨a, rfl, rfl⟩
      · rintro ⟨q, hq1, hq2⟩
        rw [hq1, hq2]

/-- `compare` accepts any value against itself (NaN included, via the
NaN-NaN branch; finite numerics via the `a == b` shortcut). -/
theorem compare_refl (v : Value) (eps : ℚ) : compare v v eps = true := by
  cases v with
  | float f =>
    cases f with
    | nan => rfl
    | fin q => simp [compare, pyIscloseF, pyIsclose, FloatVal.isNan]
  | decimal q => simp [compare, pyIsclose]
  | null => rfl
  | bool b => simp [compare, pyEq, numVal]
  | int n => simp [compare, pyEq, numVal]
  | text s => simp [compare, pyEq]

/-- A row compares equal against any extension of itself, in both
argument orders (`zip` truncates to the shorter row). -/
theorem rowEqual_append (row rest : List Value) (eps : ℚ) :
    rowEqual row (row ++ rest) eps = true ∧ rowEqual (row ++ rest) row eps = true := by
  induction row with
  | nil => constructor <;> simp [rowEqual]
  | cons a as ih =>
    constructor
    · simpa [rowEqual, compare_refl] using ih.1
    · simpa [rowEqual, compare_refl] using ih.2

/-- When the error count has already reached the cap, the loop does
not consume any row pair. -/
theorem streamRows_stop (eps : ℚ) (cap : Nat) (pairs : List (List Value × List Value))
    (errors : Nat) (h : ¬errors < cap) :
    streamRows eps cap pairs errors = (0, errors) := by
  cases pairs <;> simp [streamRows, h]

/-- The loop's error count never exceeds the cap. -/
theorem streamRows_errors_le (eps : ℚ) (cap : Nat) (pairs : List (List Value × List Value)) :
    ∀ errors, errors ≤ cap → (streamRows eps cap pairs errors).2 ≤ cap := by
  induction pairs with
  | nil => intro errors h; simpa [streamRows] using h
  | cons p rest ih =>
    intro errors h
    by_cases hlt : errors < cap
    · simp only [streamRows, if_pos hlt]
      apply ih
      split
      · exact h
      · exact hlt
    · rw [streamRows_stop eps cap _ errors hlt]
      exact h

/-- If enough mismatched pairs remain, the loop's error count ends
exactly at the cap. -/
theorem streamRows_errors_reach (eps : ℚ) (cap : Nat) (pairs : List (List Value × List Value)) :
    ∀ errors, errors ≤ cap → cap ≤ errors + countMismatchedPairs eps pairs →
      (streamRows eps cap pairs errors).2 = cap := by
  induction pairs with
  | nil =>
    intro errors h1 h2
    simp only [countMismatchedPairs, List.countP_nil, Nat.add_zero] at h2
    simpa [streamRows] using le_antisymm h1 h2
  | cons p rest ih =>
    intro errors h1 h2
    by_cases hlt : errors < cap
    · simp only [streamRows, if_pos hlt]
      rcases hre : rowEqual p.1 p.2 eps with _ | _
      · apply ih (errors + 1) hlt
        have hcnt : countMismatchedPairs eps (p :: rest)
            = countMismatchedPairs eps rest + 1 := by
          simp [countMismatchedPairs, List.countP_cons, hre]
        omega
      · apply ih errors h1
        have hcnt : countMismatchedPairs eps (p :: rest)
            = countMismatchedPairs eps rest := by
          simp [countMismatchedPairs, List.countP_cons, hre]
        omega
    · rw [streamRows_stop eps cap _ errors hlt]
      omega

/-- The loop stops scanning within any pair prefix that already holds
cap-many mismatches. -/
theorem streamRows_halt (eps : ℚ) (cap : Nat) :
    ∀ (pre post : List (List Value × List Value)) (errors : Nat),
      cap ≤ errors + countMismatchedPairs eps pre →
      (streamRows eps cap (pre ++ post) errors).1 ≤ pre.length := by
  intro pre
  induction pre with
  | nil =>
    intro post errors h
    simp only [countMismatchedPairs, List.countP_nil, Nat.add_zero] at h
    rw [List.nil_append, streamRows_stop eps cap post errors (by omega)]
    simp
  | cons p pre ih =>
    intro post errors h
    by_cases hlt : errors < cap
    · simp only [List.cons_append, streamRows, if_pos hlt, List.length_cons]
      have : (streamRows eps cap (pre ++ post)
          (if rowEqual p.1 p.2 eps then errors else errors + 1)).1 ≤ pre.length := by
        apply ih
        rcases hre : rowEqual p.1 p.2 eps with _ | _ <;>
          simp_all [countMismatchedPairs, List.countP_cons, hre] <;> omega
      simpa using this
    · rw [List.cons_append, streamRows_stop eps cap _ errors hlt]
      simp

/-! ### Claim theorems -/

/-- C1: for floating-point pairs that are not both NaN, `compare`
accepts exactly when the spec's relative-tolerance bound
`|a-b| <= epsilon * max(|a|,|b|)` holds; with epsilon = 1e-5,
1.0 vs 1.0000099999 is accepted and 1.0 vs 1.0000200001 rejected. -/
theorem c1_compare_float_relative_tolerance (e a : FloatVal) (eps : ℚ)
    (h0 : 0 ≤ eps) (hnn : ¬(e = FloatVal.nan ∧ a = FloatVal.nan)) :
    (compare (.float e) (.float a) eps = true ↔ specFloatClose e a eps = true)
    ∧ compare (.float (.fin 1)) (.float (.fin (10000099999/10000000000))) (1/100000) = true
    ∧ compare (.float (.fin 1)) (.float (.fin (10000200001/10000000000))) (1/100000) = false := by
  refine ⟨?_, compare_boundary_under, compare_boundary_over⟩
  rcases e with _ | x
  · rcases a with _ | y
    · exact absurd ⟨rfl, rfl⟩ hnn
    · simp [compare, pyIscloseF, FloatVal.isNan, specFloatClose]
  · rcases a with _ | y
    · simp [compare, pyIscloseF, FloatVal.isNan, specFloatClose]
    · have hc : compare (.float (.fin x)) (.float (.fin y)) eps = pyIsclose x y eps := rfl
      rw [hc]
      simp only [specFloatClose, pyIsclose, Bool.or_eq_true, beq_iff_eq, decide_eq_true_eq]
      constructor
      · rintro (rfl | hle)
        · simpa using mul_nonneg h0 (abs_nonneg x)
        · exact hle
      · exact fun hle => Or.inr hle

/-- Witness for C1 at concrete inputs. -/
theorem c1_compare_float_relative_tolerance_witness :
    (compare (.float (.fin 1)) (.float (.fin 2)) (1/100000) = true
      ↔ specFloatClose (.fin 1) (.fin 2) (1/100000) = true)
    ∧ compare (.float (.fin 1)) (.float (.fin (10000099999/10000000000))) (1/100000) = true
    ∧ compare (.float (.fin 1)) (.float (.fin (10000200001/10000000000))) (1/100000) = false :=
  c1_compare_float_relative_tolerance (.fin 1) (.fin 2) (1/100000) (by norm_num) (by decide)

/-- C2 counterexample: the Integer 5 and the FloatingPoint 5.0 have
different scalar types, yet `compare` returns true for them, because
the fallback `expected == actual` is Python equality, which coerces
across the numeric tower. -/
theorem c2_counterexample_int_float_equal :
    compare (.int 5) (.float (.fin 5)) (1/100000) = true := by decide

/-- C2 (amended): for values of different scalar types, `compare`
falls through to Python `==`, which accepts the pair exactly when both
values are numeric (Boolean, Integer, non-NaN FloatingPoint, or
FixedPointDecimal) with the same numeric value; mixed pairs involving
Text, Null, or NaN, and numerically unequal mixed pairs, are rejected. -/
theorem c2_mixed_type_compare_is_python_eq (v w : Value) (eps : ℚ)
    (h : v.pyType ≠ w.pyType) :
    (compare v w eps = true ↔ ∃ q, numVal v = some q ∧ numVal w = some q) := by
  rw [compare_eq_pyEq v w eps h]
  exact pyEq_num_iff v w h

/-- Witness for C2's amended theorem: `True == 1` in Python. -/
theorem c2_mixed_type_compare_is_python_eq_witness :
    compare (.bool true) (.int 1) 0 = true :=
  (c2_mixed_type_compare_is_python_eq (.bool true) (.int 1) 0 (by decide)).mpr
    ⟨1, by decide, by decide⟩

/-- C6: NaN against NaN is a match; NaN against any finite
floating-point value is a mismatch, in either argument order. -/
theorem c6_compare_nan_rules (x eps : ℚ) (_h : 0 ≤ eps) :
    compare (.float .nan) (.float .nan) eps = true
    ∧ compare (.float .nan) (.float (.fin x)) eps = false
    ∧ compare (.float (.fin x)) (.float .nan) eps = false :=
  ⟨rfl, rfl, rfl⟩

/-- Witness for C6 at concrete inputs. -/
theorem c6_compare_nan_rules_witness :
    compare (.float .nan) (.float .nan) (1/100000) = true
    ∧ compare (.float .nan) (.float (.fin 1)) (1/100000) = false
    ∧ compare (.float (.fin 1)) (.float .nan) (1/100000) = false :=
  c6_compare_nan_rules 1 (1/100000) (by norm_num)

/-- C10: `rowEqual` only compares up to the shorter row: a row whose
values are a prefix of the other's compares equal despite the arity
difference, and any row compares equal against the empty row. -/
theorem c10_rowEqual_zip_truncation (row rest : List Value) (eps : ℚ) (_h : 0 ≤ eps) :
    rowEqual row [] eps = true
    ∧ rowEqual [] row eps = true
    ∧ rowEqual row (row ++ rest) eps = true
    ∧ rowEqual (row ++ rest) row eps = true := by
  refine ⟨?_, ?_, (rowEqual_append row rest eps).1, (rowEqual_append row rest eps).2⟩
  · simp [rowEqual]
  · simp [rowEqual]

/-- C4: over row pairs of equal count, the accumulated error count
never exceeds the cap, scanning stops within any prefix that already
shows cap-many mismatches, and whenever at least cap-many pairs
mismatch the verdict carries exactly cap errors and fails. -/
theorem c4_mismatch_cap (rows1 rows2 : List (List Value)) (eps : ℚ) (cap : Nat)
    (_hlen : rows1.length = rows2.length) (_heps : 0 ≤ eps) :
    (streamRows eps cap (rows1.zip rows2) 0).2 ≤ cap
    ∧ (∀ pre post, rows1.zip rows2 = pre ++ post →
        cap ≤ countMismatchedPairs eps pre →
        (streamRows eps cap (rows1.zip rows2) 0).1 ≤ pre.length)
    ∧ (cap ≤ countMismatchedPairs eps (rows1.zip rows2) →
        compareRows rows1 rows2 eps cap = Verdict.maxErrorsReached cap
        ∧ Verdict.toBool (compareRows rows1 rows2 eps cap) = false) := by
  refine ⟨streamRows_errors_le eps cap _ 0 (Nat.zero_le cap), ?_, ?_⟩
  · intro pre post hsplit hcnt
    rw [hsplit]
    exact streamRows_halt eps cap pre post 0 (by omega)
  · intro hcnt
    have hreach : (streamRows eps cap (rows1.zip rows2) 0).2 = cap :=
      streamRows_errors_reach eps cap _ 0 (Nat.zero_le cap) (by omega)
    have hv : compareRows rows1 rows2 eps cap = Verdict.maxErrorsReached cap := by
      simp [compareRows, hreach]
    exact ⟨hv, by rw [hv]; rfl⟩

/-- Witness for C4: 15 mismatching row pairs against a cap of 10. -/
theorem c4_mismatch_cap_witness :
    compareRows (List.replicate 15 [Value.int 0]) (List.replicate 15 [Value.int 1])
      (1/100000) 10 = Verdict.maxErrorsReached 10
    ∧ Verdict.toBool (compareRows (List.replicate 15 [Value.int 0])
        (List.replicate 15 [Value.int 1]) (1/100000) 10) = false :=
  (c4_mismatch_cap (List.replicate 15 [Value.int 0]) (List.replicate 15 [Value.int 1])
    (1/100000) 10 (by decide) (by norm_num)).2.2 (by decide)

/-- C5: for a non-skipped query whose sides load with different row
counts, `compare_results` reports a count mismatch that depends only
on the two counts (no row content is consulted), a verdict distinct
from every content-mismatch verdict, and the returned boolean is
false. -/
theorem c5_count_mismatch_full_stop (query_name : String) (df1 df2 : Dataset)
    (io : Bool) (cap : Nat) (eps : ℚ)
    (hq : query_name ∉ SKIP_QUERIES)
    (hlen : df1.rows.length ≠ df2.rows.length) :
    compare_results query_name (some df1) (some df2) io cap eps
      = some (Verdict.countMismatch df1.rows.length df2.rows.length)
    ∧ Verdict.toBool (Verdict.countMismatch df1.rows.length df2.rows.length) = false
    ∧ (∀ n c1 c2, Verdict.countMismatch c1 c2 ≠ Verdict.contentMismatch n) := by
  refine ⟨?_, rfl, ?_⟩
  · simp [compare_results, hq, hlen]
  · intro n c1 c2 hc
    cases hc

/-- Witness for C5: a 1-row side against an empty side. -/
theorem c5_count_mismatch_full_stop_witness :
    compare_results "query1" (some ⟨[⟨"a", DataType.integer⟩], [[Value.int 1]]⟩)
      (some ⟨[⟨"a", DataType.integer⟩], []⟩) true 10 (1/100000)
      = some (Verdict.countMismatch 1 0)
    ∧ Verdict.toBool (Verdict.countMismatch 1 0) = false :=
  ⟨((c5_count_mismatch_full_stop "query1" ⟨[⟨"a", DataType.integer⟩], [[Value.int 1]]⟩
      ⟨[⟨"a", DataType.integer⟩], []⟩ true 10 (1/100000) (by decide) (by decide)).1),
   ((c5_count_mismatch_full_stop "query1" ⟨[⟨"a", DataType.integer⟩], [[Value.int 1]]⟩
      ⟨[⟨"a", DataType.integer⟩], []⟩ true 10 (1/100000) (by decide) (by decide)).2.1)⟩

/-- C7: the Status Reconciler sets the validation status to Fail when
the query failed validation and its prior status shows completion, to
NotAttempted when it failed validation without completing, and to Pass
whenever the query is absent from the failed set, regardless of prior
status. -/
theorem c7_update_summary_reconciliation (query_name : String)
    (unmatch_queries queryStatus : List String) :
    (query_name ∈ unmatch_queries →
      (("Completed" ∈ queryStatus ∨ "CompletedWithTaskFailures" ∈ queryStatus) →
        updateValidationStatus query_name unmatch_queries queryStatus = ["Fail"])
      ∧ (¬("Completed" ∈ queryStatus ∨ "CompletedWithTaskFailures" ∈ queryStatus) →
        updateValidationStatus query_name unmatch_queries queryStatus = ["NotAttempted"]))
    ∧ (query_name ∉ unmatch_queries →
        updateValidationStatus query_name unmatch_queries queryStatus = ["Pass"]) := by
  constructor
  · intro hm
    constructor <;> intro hc <;> simp [updateValidationStatus, hm, hc]
  · intro hm
    simp [updateValidationStatus, hm]

/-- Witness for C7: the three reconciliation outcomes at concrete
inputs. -/
theorem c7_update_summary_reconciliation_witness :
    updateValidationStatus "query1" ["query1"] ["Completed"] = ["Fail"]
    ∧ updateValidationStatus "query2" ["query2"] ["Failed"] = ["NotAttempted"]
    ∧ updateValidationStatus "query3" [] ["Failed"] = ["Pass"] :=
  ⟨((c7_update_summary_reconciliation "query1" ["query1"] ["Completed"]).1
      (by decide)).1 (by decide),
   ((c7_update_summary_reconciliation "query2" ["query2"] ["Failed"]).1
      (by decide)).2 (by decide),
   (c7_update_summary_reconciliation "query3" [] ["Failed"]).2 (by decide)⟩

/-- C8: for a query on the static skip-list, `compare_results` returns
true before touching either input, so it succeeds even when no files
exist at the query's paths (both loads `none`). -/
theorem c8_skip_list_matches_without_loading (query_name : String)
    (load1 load2 : Option Dataset) (io : Bool) (cap : Nat) (eps : ℚ)
    (hq : query_name ∈ SKIP_QUERIES) :
    compare_results query_name load1 load2 io cap eps = some Verdict.skipped
    ∧ (compare_results query_name load1 load2 io cap eps).map Verdict.toBool
        = some true := by
  constructor <;> simp [compare_results, hq, Verdict.toBool]

/-- Witness for C8: `query15_part1` with no files on either side. -/
theorem c8_skip_list_matches_without_loading_witness :
    compare_results "query15_part1" none none true 10 (1/100000) = some Verdict.skipped
    ∧ (compare_results "query15_part1" none none true 10 (1/100000)).map Verdict.toBool
        = some true :=
  c8_skip_list_matches_without_loading "query15_part1" none none true 10 (1/100000)
    (by decide)

/-- C9: with `max_errors = 0` and equal row counts, the loop never
runs, the error count 0 already equals the cap, and the
`errors == max_errors` branch fires first, so the verdict is a failure
even when both sides are empty or identical. -/
theorem c9_zero_cap_always_fails (rows1 rows2 : List (List Value)) (eps : ℚ)
    (_hlen : rows1.length = rows2.length) :
    compareRows rows1 rows2 eps 0 = Verdict.maxErrorsReached 0
    ∧ Verdict.toBool (compareRows rows1 rows2 eps 0) = false := by
  have hs : streamRows eps 0 (rows1.zip rows2) 0 = (0, 0) :=
    streamRows_stop eps 0 _ 0 (by omega)
  have hv : compareRows rows1 rows2 eps 0 = Verdict.maxErrorsReached 0 := by
    simp [compareRows, hs]
  exact ⟨hv, by rw [hv]; rfl⟩

/-- Witness for C9: two empty datasets with a zero cap. -/
theorem c9_zero_cap_always_fails_witness :
    compareRows [] [] (1/100000) 0 = Verdict.maxErrorsReached 0
    ∧ Verdict.toBool (compareRows [] [] (1/100000) 0) = false :=
  c9_zero_cap_always_fails [] [] (1/100000) rfl

/-- C3 counterexample: on the schema [decimal column "d", integer
column "x"], the code's composite sort key places the decimal column
in the leading group (key ["d", "x"]), while the spec's key places it
in the trailing group (key ["x", "d"]). -/
theorem c3_counterexample_decimal_leading :
    sortKeyCols [⟨"d", .decimal 10 2⟩, ⟨"x", .integer⟩] = ["d", "x"]
    ∧ specSortKeyCols [⟨"d", .decimal 10 2⟩, ⟨"x", .integer⟩] = ["x", "d"]
    ∧ sortKeyCols [⟨"d", .decimal 10 2⟩, ⟨"x", .integer⟩]
        ≠ specSortKeyCols [⟨"d", .decimal 10 2⟩, ⟨"x", .integer⟩] := by decide

/-- C3 (amended): the composite sort key is all columns whose
`typeName()` is neither float nor double first (in schema order),
followed by the float and double columns (in schema order); decimal
columns count as non-floating and land in the leading group. -/
theorem c3_sort_key_composition (fields : List Field) :
    sortKeyCols fields = nonFloatColNames fields ++ floatColNames fields
    ∧ (∀ f, f ∈ fields → isDecimalField f = true → f.name ∈ nonFloatColNames fields)
    ∧ (∀ f, f ∈ fields → isFloatField f = true → f.name ∈ floatColNames fields)
    ∧ (∀ f, f ∈ fields → isFloatField f = false → f.name ∈ nonFloatColNames fields) := by
  refine ⟨rfl, ?_, ?_, ?_⟩
  · intro f hf hdec
    have hnf : isFloatField f = false := by
      rcases f with ⟨n, dt⟩
      cases dt <;> simp_all [isDecimalField, isFloatField, DataType.typeName]
    exact List.mem_map.mpr ⟨f, List.mem_filter.mpr ⟨hf, by simp [hnf]⟩, rfl⟩
  · intro f hf hff
    exact List.mem_map.mpr ⟨f, List.mem_filter.mpr ⟨hf, hff⟩, rfl⟩
  · intro f hf hnf
    exact List.mem_map.mpr ⟨f, List.mem_filter.mpr ⟨hf, by simp [hnf]⟩, rfl⟩

/-- Witness for C3's amended theorem: the decimal column of the
counterexample schema sits in the leading group. -/
theorem c3_sort_key_composition_witness :
    "d" ∈ nonFloatColNames [⟨"d", DataType.decimal 10 2⟩, ⟨"x", DataType.integer⟩] :=
  (c3_sort_key_composition [⟨"d", DataType.decimal 10 2⟩, ⟨"x", DataType.integer⟩]).2.1
    ⟨"d", DataType.decimal 10 2⟩ (by decide) (by decide)

/-- Witness for C10 at concrete rows of different arity. -/
theorem c10_rowEqual_zip_truncation_witness :
    rowEqual [Value.int 1, Value.text "a"] [] (1/100000) = true
    ∧ rowEqual [] [Value.int 1, Value.text "a"] (1/100000) = true
    ∧ rowEqual [Value.int 1, Value.text "a"] ([Value.int 1, Value.text "a"] ++ [Value.null]) (1/100000) = true
    ∧ rowEqual ([Value.int 1, Value.text "a"] ++ [Value.null]) [Value.int 1, Value.text "a"] (1/100000) = true :=
  c10_rowEqual_zip_truncation [Value.int 1, Value.text "a"] [Value.null] (1/100000) (by norm_num)

end NDSH
